import Mathlib

/-!
Verification of the typed channel core of `src/fltk/src/app.rs`: the
`channel::<T>()` factory and the `Sender::send` / `Receiver::recv` operations
built on FLTK's single-slot awake-message transport (`Fl_awake_msg` /
`Fl_thread_msg`).

Payload values are embedded by their byte representation (`Bytes`), since the
Rust code moves `Copy` values through an untyped `*mut c_void` pointer and
reinterprets the bytes on the receiving side. The awake transport itself is
external C code; its single-slot overwrite/take semantics are modelled from
the specification's state machine.
-/

namespace FltkApp

/-- Byte representation of a `Copy` Rust value, as it travels through the
untyped transport (the `Box::into_raw` / `Box::from_raw` round trip moves raw
bytes behind a `*mut c_void`). -/
abbrev Bytes := List Nat

/-- Modelled from the spec: `std::collections::hash_map::DefaultHasher` is not
part of this repository. The spec requires only "a hash of the payload type's
canonical name" into a 64-bit value, with "fingerprint collisions across
distinct types … treated as acceptable residual risk, not prevented".
Modelled as a deterministic polynomial hash of the name, reduced mod 2^64. -/
def defaultHash (name : String) : Nat :=
  name.data.foldl (fun a c => (a * 31 + c.toNat) % 2 ^ 64) 0

/-- A Rust payload type as `channel::<T>()` observes it: its canonical
`std::any::type_name::<T>()` and its `std::mem::size_of::<T>()`. -/
structure RustType where
  name : String
  sz : Nat
deriving DecidableEq

/-- `#[repr(C)] struct Message<T> { hash: u64, sz: usize, msg: T }` from
`src/fltk/src/app.rs`; the payload is kept as its byte representation. -/
structure Message where
  hash : Nat
  sz : Nat
  msg : Bytes
deriving DecidableEq

/-- The process-wide awake-transport slot: it holds at most one pending
envelope (`Occupied` = `some`, `Empty` = `none`). -/
abbrev Slot := Option Message

/-- Modelled from the spec: `Fl_awake_msg` (the transport's `deposit`)
installs the payload in the single process-wide slot, overwriting whatever
envelope currently occupies it. -/
def awake_msg (msg : Message) (slot : Slot) : Slot :=
  some msg

/-- Modelled from the spec: `Fl_thread_msg` (the transport's `take`)
atomically removes and returns the current slot contents, or reports empty;
`thread_msg` in `app.rs` wraps it, returning `None` on a null pointer and
re-owning the boxed message otherwise. -/
def thread_msg (slot : Slot) : Option Message × Slot :=
  (slot, none)

/-- `pub struct Sender<T> { data: PhantomData<T>, hash: u64, sz: usize }`. -/
structure Sender where
  hash : Nat
  sz : Nat
deriving DecidableEq

/-- `Sender::send`: wraps the value in a `Message { hash: self.hash,
sz: self.sz, msg: val }` and hands it to `awake_msg`. -/
def Sender.send (self : Sender) (val : Bytes) (slot : Slot) : Slot :=
  awake_msg { hash := self.hash, sz := self.sz, msg := val } slot

/-- `pub struct Receiver<T> { data: PhantomData<T>, hash: u64, sz: usize }`. -/
structure Receiver where
  hash : Nat
  sz : Nat
deriving DecidableEq

/-- `Receiver::recv`: takes the pending envelope via `thread_msg`; if
`data.sz == self.sz && data.hash == self.hash` the payload is returned,
otherwise (mismatch or empty slot) nothing is. -/
def Receiver.recv (self : Receiver) (slot : Slot) : Option Bytes × Slot :=
  match thread_msg slot with
  | (some data, rest) =>
      if data.sz = self.sz ∧ data.hash = self.hash then (some data.msg, rest)
      else (none, rest)
  | (none, rest) => (none, rest)

/-- `pub fn channel<T>() -> (Sender<T>, Receiver<T>)`: computes
`msg_sz = size_of::<T>()` and `type_hash = DefaultHasher(type_name::<T>())`
and returns the two handles carrying that pair. -/
def channel (T : RustType) : Sender × Receiver :=
  let msg_sz := T.sz
  let type_hash := defaultHash T.name
  ({ hash := type_hash, sz := msg_sz },
   { hash := type_hash, sz := msg_sz })

/-- The runtime type fingerprint of `T`: the `{name-hash, size}` pair that
`channel::<T>()` stamps into both handles. -/
def fingerprint (T : RustType) : Nat × Nat :=
  (defaultHash T.name, T.sz)

/-- Iterated consumption: fold a list of `recv` calls over the slot, keeping
only the evolving slot state. -/
def runRecvs (rs : List Receiver) (s : Slot) : Slot :=
  rs.foldl (fun sl r => (r.recv sl).2) s

/-- Any single `recv`, matching or not, leaves the slot empty. -/
theorem recv_empties (r : Receiver) (s : Slot) : (r.recv s).2 = none := by
  cases s with
  | none => rfl
  | some m =>
      simp only [Receiver.recv, thread_msg]
      split <;> rfl

/-- An empty slot stays empty under any sequence of `recv` calls. -/
theorem runRecvs_none (rs : List Receiver) : runRecvs rs none = none := by
  induction rs with
  | nil => rfl
  | cons r rs ih =>
      simp only [runRecvs, List.foldl_cons] at ih ⊢
      rw [recv_empties]
      exact ih

/-- C1: for every payload value `v` of a type `T` and every starting slot
state, `send(v)` through the sender returned by `channel` followed
immediately by `recv()` through the matching receiver yields `some v`,
with full value equality. -/
theorem c1_send_recv_roundtrip (T : RustType) (v : Bytes) (s : Slot) :
    (((channel T).2).recv (((channel T).1).send v s)).1 = some v := by
  simp [channel, Sender.send, Receiver.recv, awake_msg, thread_msg]

/-- C2: when the fingerprints of `T1` and `T2` differ, `send::<T1>(v)`
followed immediately by `recv::<T2>()` yields nothing, the slot is left
empty, and the `T1` payload is unrecoverable: any further sequence of `recv`
calls, last one of any type `r`, still yields nothing. -/
theorem c2_mismatch_drops (T1 T2 : RustType) (v : Bytes) (s : Slot)
    (rs : List Receiver) (r : Receiver)
    (h : fingerprint T1 ≠ fingerprint T2) :
    (((channel T2).2).recv (((channel T1).1).send v s)).1 = none ∧
    (((channel T2).2).recv (((channel T1).1).send v s)).2 = none ∧
    (r.recv (runRecvs rs (((channel T2).2).recv
      (((channel T1).1).send v s)).2)).1 = none := by
  have hcond : ¬ (T1.sz = T2.sz ∧ defaultHash T1.name = defaultHash T2.name) := by
    intro hc
    exact h (by simp [fingerprint, hc.1, hc.2])
  have h1 : (((channel T2).2).recv (((channel T1).1).send v s)).1 = none := by
    simp [channel, Sender.send, Receiver.recv, awake_msg, thread_msg, hcond]
  have h2 : (((channel T2).2).recv (((channel T1).1).send v s)).2 = none :=
    recv_empties _ _
  refine ⟨h1, h2, ?_⟩
  rw [h2, runRecvs_none]
  rfl

/-- C2 witness: the fingerprints of the models of `i32` and `i64` differ, and
the mismatch/loss behavior holds at that concrete input. -/
theorem c2_mismatch_drops_witness :
    fingerprint ⟨"i32", 4⟩ ≠ fingerprint ⟨"i64", 8⟩ ∧
    ((((channel ⟨"i64", 8⟩).2).recv (((channel ⟨"i32", 4⟩).1).send [7] none)).1 = none ∧
     (((channel ⟨"i64", 8⟩).2).recv (((channel ⟨"i32", 4⟩).1).send [7] none)).2 = none ∧
     (Receiver.recv ⟨9, 9⟩ (runRecvs [⟨0, 4⟩] (((channel ⟨"i64", 8⟩).2).recv
       (((channel ⟨"i32", 4⟩).1).send [7] none)).2)).1 = none) :=
  ⟨by decide,
   c2_mismatch_drops ⟨"i32", 4⟩ ⟨"i64", 8⟩ [7] none [⟨0, 4⟩] ⟨9, 9⟩ (by decide)⟩

/-- C3: after a successful `recv` the slot is empty, so a second `recv` —
through any receiver handle in the process — yields nothing and leaves the
slot empty: a pending envelope is consumed by exactly one `recv` call. -/
theorem c3_single_consumption (r r' : Receiver) (s : Slot) (v : Bytes)
    (h : (r.recv s).1 = some v) :
    (r'.recv ((r.recv s).2)).1 = none ∧ (r'.recv ((r.recv s).2)).2 = none := by
  rw [recv_empties]
  exact ⟨rfl, rfl⟩

/-- C3 witness: concretely, after the `i64`-modelled receiver consumes `[42]`
a second `recv` on the same receiver yields nothing. -/
theorem c3_single_consumption_witness :
    (((channel ⟨"i64", 8⟩).2).recv (((channel ⟨"i64", 8⟩).1).send [42] none)).1 =
      some [42] ∧
    ((((channel ⟨"i64", 8⟩).2).recv ((((channel ⟨"i64", 8⟩).2).recv
       (((channel ⟨"i64", 8⟩).1).send [42] none)).2)).1 = none ∧
     (((channel ⟨"i64", 8⟩).2).recv ((((channel ⟨"i64", 8⟩).2).recv
       (((channel ⟨"i64", 8⟩).1).send [42] none)).2)).2 = none) :=
  ⟨by decide,
   c3_single_consumption (channel ⟨"i64", 8⟩).2 (channel ⟨"i64", 8⟩).2
     (((channel ⟨"i64", 8⟩).1).send [42] none) [42] (by decide)⟩

/-- C4: two `send` calls with no intervening `recv` overwrite: one `recv`
yields only the second value and leaves the slot empty, so the first value
is unobservable; whereas with a `recv` between the sends, both values are
observed separately, in order. -/
theorem c4_last_write_wins (T : RustType) (v1 v2 : Bytes) (s : Slot) :
    (((channel T).2).recv (((channel T).1).send v2
      (((channel T).1).send v1 s))).1 = some v2 ∧
    (((channel T).2).recv (((channel T).1).send v2
      (((channel T).1).send v1 s))).2 = none ∧
    (((channel T).2).recv (((channel T).1).send v1 s)).1 = some v1 ∧
    (((channel T).2).recv (((channel T).1).send v2
      ((((channel T).2).recv (((channel T).1).send v1 s)).2))).1 = some v2 := by
  refine ⟨?_, recv_empties _ _, ?_, ?_⟩ <;>
    simp [channel, Sender.send, Receiver.recv, awake_msg, thread_msg]

/-- C5 counterexample: two distinct types — different canonical names — whose
fingerprints nevertheless coincide (equal size, colliding name hash), so
fingerprint equality does not imply type equality. -/
theorem c5_counterexample :
    fingerprint ⟨"Aa", 8⟩ = fingerprint ⟨"BB", 8⟩ ∧
    (⟨"Aa", 8⟩ : RustType) ≠ ⟨"BB", 8⟩ := by
  decide

/-- C5 amended: fingerprints are deterministic — the same type always yields
equal fingerprints — but the converse fails: distinct types can share a
fingerprint (hash collision with equal size), the residual risk the data
model accepts. -/
theorem c5_fingerprint_determinism :
    (∀ T1 T2 : RustType, T1 = T2 → fingerprint T1 = fingerprint T2) ∧
    (∃ T1 T2 : RustType, fingerprint T1 = fingerprint T2 ∧ T1 ≠ T2) :=
  ⟨fun _ _ h => h ▸ rfl, ⟨"Aa", 8⟩, ⟨"BB", 8⟩, by decide, by decide⟩

/-- C6: `channel` is a pure function of the type, so a second call returns a
handle pair equal to the first; within each pair the sender and receiver
carry the same `{hash, sz}`, those fields are exactly the type's
fingerprint, and one call's sender interoperates with the other call's
receiver through the shared process-wide slot. -/
theorem c6_channel_process_wide (T : RustType) (v : Bytes) (s : Slot) :
    channel T = channel T ∧
    (channel T).1.hash = (channel T).2.hash ∧
    (channel T).1.sz = (channel T).2.sz ∧
    ((channel T).1.hash, (channel T).1.sz) = fingerprint T ∧
    ((channel T).2).recv (((channel T).1).send v s) = (some v, none) := by
  refine ⟨rfl, rfl, rfl, rfl, ?_⟩
  simp [channel, Sender.send, Receiver.recv, awake_msg, thread_msg]

/-- C7: none of the operations fail. `send` always deposits an envelope
(fire-and-forget, no acknowledgement), and `recv` surfaces a fingerprint
mismatch and an empty slot identically: both return the very same
`(none, none)`, indistinguishable to the caller. -/
theorem c7_fail_silent (T : RustType) (v : Bytes) (s : Slot) (r : Receiver)
    (m : Message) (h : ¬ (m.sz = r.sz ∧ m.hash = r.hash)) :
    ((channel T).1).send v s =
      some { hash := defaultHash T.name, sz := T.sz, msg := v } ∧
    r.recv (some m) = (none, none) ∧
    r.recv none = (none, none) := by
  refine ⟨rfl, ?_, rfl⟩
  simp only [Receiver.recv, thread_msg]
  rw [if_neg h]

/-- C7 witness: concretely, a receiver with fingerprint `{5, 8}` maps both a
size-mismatched envelope and an empty slot to the same `(none, none)`. -/
theorem c7_fail_silent_witness :
    (¬ ((4 : Nat) = 8 ∧ (5 : Nat) = 5)) ∧
    (((channel ⟨"i32", 4⟩).1).send [9] none =
       some { hash := defaultHash "i32", sz := 4, msg := [9] } ∧
     Receiver.recv ⟨5, 8⟩ (some ⟨5, 4, [1]⟩) = (none, none) ∧
     Receiver.recv ⟨5, 8⟩ none = (none, none)) :=
  ⟨by decide, c7_fail_silent ⟨"i32", 4⟩ [9] none ⟨5, 8⟩ ⟨5, 4, [1]⟩ (by decide)⟩

/-- C8: the slot state machine. `send` maps any state — `Empty` or
`Occupied` — to `Occupied` with the new envelope, silently dropping any
previous occupant; `recv` maps any state to `Empty` (yielding the envelope
only in the matching occupied case). The slot being an `Option Message`
makes "never more than one envelope" intrinsic to the state type. -/
theorem c8_slot_state_machine (snd : Sender) (v : Bytes) (r : Receiver)
    (s : Slot) :
    snd.send v s = some { hash := snd.hash, sz := snd.sz, msg := v } ∧
    (r.recv s).2 = none :=
  ⟨rfl, recv_empties r s⟩

/-- C9: when two distinct types collide on both name hash and size, `recv`
through the second type's receiver accepts the envelope sent for the first
type and returns the payload's byte representation — type confusion at the
public interface, not `none`. -/
theorem c9_collision_type_confusion (T1 T2 : RustType) (v : Bytes) (s : Slot)
    (hne : T1 ≠ T2) (h : fingerprint T1 = fingerprint T2) :
    (((channel T2).2).recv (((channel T1).1).send v s)).1 = some v := by
  have h1 : defaultHash T1.name = defaultHash T2.name := by
    simpa [fingerprint] using congrArg Prod.fst h
  have h2 : T1.sz = T2.sz := by
    simpa [fingerprint] using congrArg Prod.snd h
  simp [channel, Sender.send, Receiver.recv, awake_msg, thread_msg, h1, h2]

/-- C9 witness: the concrete colliding pair of distinct types hands the
`"Aa"`-typed payload bytes `[42]` to the `"BB"`-typed receiver. -/
theorem c9_collision_type_confusion_witness :
    (⟨"Aa", 8⟩ : RustType) ≠ ⟨"BB", 8⟩ ∧
    fingerprint ⟨"Aa", 8⟩ = fingerprint ⟨"BB", 8⟩ ∧
    (((channel ⟨"BB", 8⟩).2).recv
      (((channel ⟨"Aa", 8⟩).1).send [42] none)).1 = some [42] :=
  ⟨by decide, by decide,
   c9_collision_type_confusion ⟨"Aa", 8⟩ ⟨"BB", 8⟩ [42] none
     (by decide) (by decide)⟩

/-- C10: handles are stateless capability tokens. In this embedding of the
`&self` methods the handles are immutable values; the theorem states that a
handle's entire observable behavior is determined by its `{hash, sz}` fields
together with the external slot — two senders (or receivers) with equal
fields are indistinguishable, so all channel state lives in the slot. -/
theorem c10_handles_stateless (s1 s2 : Sender) (r1 r2 : Receiver) (v : Bytes)
    (sl : Slot) (hh : s1.hash = s2.hash) (hs : s1.sz = s2.sz)
    (rh : r1.hash = r2.hash) (rs : r1.sz = r2.sz) :
    s1.send v sl = s2.send v sl ∧ r1.recv sl = r2.recv sl := by
  obtain ⟨a1, b1⟩ := s1
  obtain ⟨a2, b2⟩ := s2
  obtain ⟨a3, b3⟩ := r1
  obtain ⟨a4, b4⟩ := r2
  cases hh
  cases hs
  cases rh
  cases rs
  exact ⟨rfl, rfl⟩

/-- C10 witness: the statelessness equalities at concrete handles. -/
theorem c10_handles_stateless_witness :
    ((1 : Nat) = 1) ∧ ((2 : Nat) = 2) ∧ ((3 : Nat) = 3) ∧ ((8 : Nat) = 8) ∧
    (Sender.send ⟨1, 2⟩ [5] none = Sender.send ⟨1, 2⟩ [5] none ∧
     Receiver.recv ⟨3, 8⟩ none = Receiver.recv ⟨3, 8⟩ none) :=
  ⟨rfl, rfl, rfl, rfl,
   c10_handles_stateless ⟨1, 2⟩ ⟨1, 2⟩ ⟨3, 8⟩ ⟨3, 8⟩ [5] none rfl rfl rfl rfl⟩

end FltkApp
